import Mathlib

/-!
Shallow embedding of `src/js/app.js` (krillavilla/Personal-Portfolio):
the responsive continuous-scroll controller, project-record
normalization, and contact-form message validation, together with
proofs of the specified properties.
-/

namespace Portfolio

/-! ## Responsive scrolling (`src/js/app.js` lines 290-382)

The browser state read or mutated by the controller is made explicit:
the scrollable container (a `null`able reference with `scrollLeft` and
`scrollTop` offsets), the viewport width read by `matchMedia`, the
`appState.scrollController` slot, and the host's table of installed
interval timers.  Browser timer ids are positive integers, so the
JavaScript truthiness test `if (appState.scrollController)` coincides
with the `Option` match used here. -/

/-- Scroll axis: `x` (horizontal) or `y` (vertical), as returned by
`getAxis` in the source. -/
inductive Axis where
  | x
  | y
deriving DecidableEq, Repr

/-- `getAxis` (app.js 298-300):
`window.matchMedia('(min-width: 1024px)').matches ? 'y' : 'x'`.
The media query `(min-width: 1024px)` matches exactly when the viewport
width is at least 1024 px. -/
def getAxis (viewportWidth : Nat) : Axis :=
  if 1024 ≤ viewportWidth then Axis.y else Axis.x

/-- A scrollable container element: the two scroll offsets the
controller mutates. -/
structure Container where
  scrollLeft : Int
  scrollTop : Int
deriving DecidableEq, Repr

/-- The body of `scrollByAxis` once the container is known non-null
(app.js 310-317): `scrollAmount = Math.abs(delta) * 20`, then the
offset along the current axis is incremented by `+scrollAmount` when
`delta > 0` and by `-scrollAmount` otherwise. -/
def scrollStep (c : Container) (delta : Int) (viewportWidth : Nat) : Container :=
  let scrollAmount : Int := (delta.natAbs : Int) * 20
  match getAxis viewportWidth with
  | Axis.x => { c with scrollLeft := c.scrollLeft + (if delta > 0 then scrollAmount else -scrollAmount) }
  | Axis.y => { c with scrollTop := c.scrollTop + (if delta > 0 then scrollAmount else -scrollAmount) }

/-- `scrollByAxis` (app.js 307-318): early return when the container
reference is `null`, otherwise one `scrollStep` on it. -/
def scrollByAxis (container : Option Container) (delta : Int) (viewportWidth : Nat) :
    Option Container :=
  match container with
  | none => none
  | some c => some (scrollStep c delta viewportWidth)

/-- An installed interval timer, as created by `setInterval` inside
`startContinuousScroll` (app.js 330-332).  Its callback closes over the
`container` argument (here: whether that reference was `null`) and the
`direction` argument. -/
structure Timer where
  id : Nat
  passedNull : Bool
  direction : Int
deriving DecidableEq, Repr

/-- The state touched by the scroll controller: the single scrollable
container (the projects list), the viewport width, the
`appState.scrollController` slot, the host's installed interval timers,
and the next fresh (positive) timer id. -/
structure ScrollState where
  container : Option Container
  viewportWidth : Nat
  scrollController : Option Nat
  activeTimers : List Timer
  nextTimerId : Nat
deriving DecidableEq, Repr

/-- `clearInterval(t)`: the host removes the timer with id `t`. -/
def clearIntervalTimer (s : ScrollState) (t : Nat) : ScrollState :=
  { s with activeTimers := s.activeTimers.filter (fun tm => tm.id != t) }

/-- `setInterval(cb, 50)`: the host installs a fresh timer whose
callback closes over the controller's arguments, and returns the new
timer id. -/
def setIntervalTimer (s : ScrollState) (passedNull : Bool) (direction : Int) :
    Nat × ScrollState :=
  (s.nextTimerId,
   { s with
     activeTimers := s.activeTimers ++ [⟨s.nextTimerId, passedNull, direction⟩],
     nextTimerId := s.nextTimerId + 1 })

/-- `startContinuousScroll(container, direction)` (app.js 325-333): if
`appState.scrollController` is set, `clearInterval` it; then install a
new interval running `scrollByAxis(container, direction)` every 50 ms
and store its id in the slot.  `passedNull` records whether the
`container` argument was `null`. -/
def startContinuousScroll (s : ScrollState) (passedNull : Bool) (direction : Int) :
    ScrollState :=
  let s1 := match s.scrollController with
    | some t => clearIntervalTimer s t
    | none => s
  let p := setIntervalTimer s1 passedNull direction
  { p.2 with scrollController := some p.1 }

/-- `stopContinuousScroll()` (app.js 338-343): if the slot is set,
`clearInterval` the stored id and null the slot; otherwise do
nothing. -/
def stopContinuousScroll (s : ScrollState) : ScrollState :=
  match s.scrollController with
  | some t => { clearIntervalTimer s t with scrollController := none }
  | none => s

/-- One firing of the interval timer with id `t` (if still installed):
its callback runs `scrollByAxis(container, direction)` on the captured
arguments.  A callback that captured a `null` container reference is a
no-op by the early return in `scrollByAxis`. -/
def tickTimer (s : ScrollState) (t : Nat) : ScrollState :=
  match s.activeTimers.find? (fun tm => tm.id == t) with
  | none => s
  | some tm =>
    if tm.passedNull then s
    else { s with container := scrollByAxis s.container tm.direction s.viewportWidth }

/-- The events that drive the controller: a hold begins
(`startContinuousScroll`), a stop trigger fires (pointer/mouse release,
blur — all wired to `stopContinuousScroll`, app.js 361-380), an
interval timer fires, or the window is resized (which changes the
viewport width and, per app.js 381, runs `stopContinuousScroll`). -/
inductive Event where
  | start (passedNull : Bool) (direction : Int)
  | stop
  | tick (id : Nat)
  | resize (w : Nat)

/-- Event-loop semantics: each event handler runs synchronously to
completion. -/
def step (s : ScrollState) : Event → ScrollState
  | Event.start pn d => startContinuousScroll s pn d
  | Event.stop => stopContinuousScroll s
  | Event.tick t => tickTimer s t
  | Event.resize w => stopContinuousScroll { s with viewportWidth := w }

/-- Run a sequence of events. -/
def run (s : ScrollState) (evs : List Event) : ScrollState :=
  evs.foldl step s

/-- Run a sequence of timer firings (the passage of time with no new
user input). -/
def runTicks (s : ScrollState) (ts : List Nat) : ScrollState :=
  ts.foldl tickTimer s

/-- Initial page state: projects list present with both offsets 0, a
mobile-width viewport, no session, no timers; browser timer ids start
at 1. -/
def initState : ScrollState :=
  { container := some ⟨0, 0⟩
    viewportWidth := 500
    scrollController := none
    activeTimers := []
    nextTimerId := 1 }

/-- `n` consecutive firings of a session's callback
`scrollByAxis(container, delta)` at a fixed viewport width. -/
def scrollTicks (n : Nat) (delta : Int) (viewportWidth : Nat)
    (c : Option Container) : Option Container :=
  match n with
  | 0 => c
  | Nat.succ m => scrollTicks m delta viewportWidth (scrollByAxis c delta viewportWidth)

/-! ### Controller invariant -/

/-- Reachable-state invariant relating the session slot to the host's
timer table: no slot means no installed timer; a slot holding id `t`
means exactly one installed timer, with id `t`. -/
def Inv (s : ScrollState) : Prop :=
  match s.scrollController with
  | none => s.activeTimers = []
  | some t => ∃ tm : Timer, s.activeTimers = [tm] ∧ tm.id = t

theorem inv_initState : Inv initState := by
  simp [Inv, initState]

theorem start_activeTimers (s : ScrollState) (h : Inv s) (pn : Bool) (d : Int) :
    (startContinuousScroll s pn d).activeTimers = [⟨s.nextTimerId, pn, d⟩] ∧
    (startContinuousScroll s pn d).scrollController = some s.nextTimerId ∧
    (startContinuousScroll s pn d).container = s.container := by
  unfold startContinuousScroll setIntervalTimer
  cases hc : s.scrollController with
  | none =>
    simp [Inv, hc] at h
    simp [hc, h]
  | some t =>
    simp [Inv, hc] at h
    obtain ⟨tm, hact, hid⟩ := h
    simp [hc, clearIntervalTimer, hact, hid]

theorem stop_state (s : ScrollState) (h : Inv s) :
    (stopContinuousScroll s).activeTimers = [] ∧
    (stopContinuousScroll s).scrollController = none ∧
    (stopContinuousScroll s).container = s.container := by
  unfold stopContinuousScroll
  cases hc : s.scrollController with
  | none =>
    simp [Inv, hc] at h
    simp [hc, h]
  | some t =>
    simp [Inv, hc] at h
    obtain ⟨tm, hact, hid⟩ := h
    simp [clearIntervalTimer, hact, hid]

theorem tick_frame (s : ScrollState) (t : Nat) :
    (tickTimer s t).scrollController = s.scrollController ∧
    (tickTimer s t).activeTimers = s.activeTimers := by
  unfold tickTimer
  cases h : s.activeTimers.find? (fun tm => tm.id == t) with
  | none => simp
  | some tm => by_cases hp : tm.passedNull <;> simp [hp]

theorem inv_step (s : ScrollState) (e : Event) (h : Inv s) : Inv (step s e) := by
  cases e with
  | start pn d =>
    have hs := start_activeTimers s h pn d
    simp only [step, Inv, hs.2.1, hs.1]
    exact ⟨⟨s.nextTimerId, pn, d⟩, rfl, rfl⟩
  | stop =>
    have hs := stop_state s h
    simp only [step, Inv, hs.2.1, hs.1]
  | tick t =>
    have hf := tick_frame s t
    simp only [step, Inv, hf.1, hf.2]
    exact h
  | resize w =>
    have h2 : Inv { s with viewportWidth := w } := h
    have hs := stop_state { s with viewportWidth := w } h2
    simp only [step, Inv, hs.2.1, hs.1]

theorem inv_run (evs : List Event) (s : ScrollState) (h : Inv s) : Inv (run s evs) := by
  induction evs generalizing s with
  | nil => exact h
  | cons e rest ih => exact ih (step s e) (inv_step s e h)

theorem run_append (s : ScrollState) (l1 l2 : List Event) :
    run s (l1 ++ l2) = run (run s l1) l2 :=
  List.foldl_append step s l1 l2

theorem tick_of_no_timers (s : ScrollState) (t : Nat) (h : s.activeTimers = []) :
    tickTimer s t = s := by
  unfold tickTimer
  simp [h]

theorem runTicks_of_no_timers (s : ScrollState) (ts : List Nat)
    (h : s.activeTimers = []) : runTicks s ts = s := by
  induction ts with
  | nil => rfl
  | cons t rest ih =>
    show runTicks (tickTimer s t) rest = s
    rw [tick_of_no_timers s t h]
    exact ih

theorem tick_of_null_timers (s : ScrollState) (t : Nat)
    (h : ∀ tm ∈ s.activeTimers, tm.passedNull = true) :
    tickTimer s t = s := by
  unfold tickTimer
  cases hf : s.activeTimers.find? (fun tm => tm.id == t) with
  | none => rfl
  | some tm =>
    have hm : tm ∈ s.activeTimers := List.mem_of_find?_eq_some hf
    simp [h tm hm]

theorem runTicks_of_null_timers (s : ScrollState) (ts : List Nat)
    (h : ∀ tm ∈ s.activeTimers, tm.passedNull = true) :
    runTicks s ts = s := by
  induction ts with
  | nil => rfl
  | cons t rest ih =>
    show runTicks (tickTimer s t) rest = s
    rw [tick_of_null_timers s t h]
    exact ih

/-! ### Claim theorems for the scroll controller -/

/-- C1: at most one scroll session is active at any time.  For every
sequence of events from the initial page state, after
`startContinuousScroll` returns there is exactly one installed timer
(any previously active session having been cancelled first by the
`clearInterval` in app.js 326-328); in particular starting twice in
succession and then stopping once leaves zero installed timers. -/
theorem single_session_invariant (evs : List Event) (pn pn2 : Bool) (d d2 : Int) :
    (run initState (evs ++ [Event.start pn d])).activeTimers.length = 1 ∧
    (run initState (evs ++ [Event.start pn d, Event.start pn2 d2, Event.stop])).activeTimers.length = 0 := by
  have hinv : Inv (run initState evs) := inv_run evs initState inv_initState
  constructor
  · rw [run_append]
    have h1 := start_activeTimers (run initState evs) hinv pn d
    show (step (run initState evs) (Event.start pn d)).activeTimers.length = 1
    simp only [step, h1.1, List.length_singleton]
  · rw [run_append]
    have h1 : Inv (run (run initState evs) [Event.start pn d]) :=
      inv_run [Event.start pn d] _ hinv
    have h2 : Inv (run (run initState evs) [Event.start pn d, Event.start pn2 d2]) :=
      inv_run [Event.start pn d, Event.start pn2 d2] _ hinv
    show (run (run initState evs) [Event.start pn d, Event.start pn2 d2, Event.stop]).activeTimers.length = 0
    have : run (run initState evs) [Event.start pn d, Event.start pn2 d2, Event.stop] =
        stopContinuousScroll (run (run initState evs) [Event.start pn d, Event.start pn2 d2]) := rfl
    rw [this, (stop_state _ h2).1, List.length_nil]

/-- C2: `getAxis` returns the vertical axis exactly when the viewport
width is at least 1024, the horizontal axis exactly when it is below
1024, and at exactly 1024 it returns vertical.  (As embedded it is a
pure function of the width alone.) -/
theorem getAxis_threshold (w : Nat) :
    (getAxis w = Axis.y ↔ 1024 ≤ w) ∧
    (getAxis w = Axis.x ↔ w < 1024) ∧
    getAxis 1024 = Axis.y := by
  rcases Nat.lt_or_ge w 1024 with h | h
  · have hx : getAxis w = Axis.x := by
      unfold getAxis
      rw [if_neg (by omega)]
    refine ⟨?_, ?_, by unfold getAxis; rw [if_pos (by omega)]⟩
    · rw [hx]
      simp
      omega
    · rw [hx]
      simp [h]
  · have hy : getAxis w = Axis.y := by
      unfold getAxis
      rw [if_pos h]
    refine ⟨?_, ?_, by unfold getAxis; rw [if_pos (by omega)]⟩
    · rw [hy]
      simp [h]
    · rw [hy]
      simp
      omega

/-- C3 as stated is false: `startContinuousScroll` called with a
`null` container is not a no-op — from the initial state it installs
one interval timer and stores its id in the session slot. -/
theorem startNullContainer_not_noop :
    (startContinuousScroll initState true 1).activeTimers.length = 1 ∧
    (startContinuousScroll initState true 1).scrollController = some 1 ∧
    initState.activeTimers.length = 0 ∧ initState.scrollController = none := by
  refine ⟨rfl, rfl, rfl, rfl⟩

/-- C3 amended: `startContinuousScroll` with a `null` container raises
no error and never changes the scroll offsets — the session it creates
ticks as no-ops — but it does create a session: one timer is installed.
After any event history, starting with a `null` container leaves the
container untouched, any number of subsequent timer firings leaves the
whole state untouched, and exactly one timer is installed. -/
theorem startNullContainer_harmless (evs : List Event) (d : Int) (ts : List Nat) :
    (run initState (evs ++ [Event.start true d])).container =
      (run initState evs).container ∧
    runTicks (run initState (evs ++ [Event.start true d])) ts =
      run initState (evs ++ [Event.start true d]) ∧
    (run initState (evs ++ [Event.start true d])).activeTimers.length = 1 := by
  have hinv : Inv (run initState evs) := inv_run evs initState inv_initState
  have hs := start_activeTimers (run initState evs) hinv true d
  have heq : run initState (evs ++ [Event.start true d]) =
      startContinuousScroll (run initState evs) true d := by
    rw [run_append]; rfl
  refine ⟨by rw [heq, hs.2.2], ?_, by rw [heq, hs.1, List.length_singleton]⟩
  apply runTicks_of_null_timers
  intro tm hm
  rw [heq, hs.1] at hm
  simp only [List.mem_singleton] at hm
  rw [hm]

/-- C4: with the horizontal axis active (width < 1024) and direction
`+1`, `n` firings of the scroll callback increase `scrollLeft` by
exactly `n * 20` (the per-tick magnitude `Math.abs(delta) * 20`) and
leave `scrollTop` unchanged; with direction `-1`, `scrollLeft`
decreases by exactly `n * 20` and `scrollTop` is likewise unchanged. -/
theorem horizontal_ticks_delta (n : Nat) (c : Container) (w : Nat) (hw : w < 1024) :
    scrollTicks n 1 w (some c) = some ⟨c.scrollLeft + 20 * n, c.scrollTop⟩ ∧
    scrollTicks n (-1) w (some c) = some ⟨c.scrollLeft - 20 * n, c.scrollTop⟩ := by
  have hx : getAxis w = Axis.x := by
    unfold getAxis
    rw [if_neg (by omega)]
  induction n generalizing c with
  | zero => simp [scrollTicks]
  | succ m ih =>
    constructor
    · show scrollTicks m 1 w (scrollByAxis (some c) 1 w) = _
      have hstep : scrollByAxis (some c) 1 w = some ⟨c.scrollLeft + 20, c.scrollTop⟩ := by
        simp [scrollByAxis, scrollStep, hx]
      rw [hstep, (ih ⟨c.scrollLeft + 20, c.scrollTop⟩).1]
      congr 2
      push_cast
      ring
    · show scrollTicks m (-1) w (scrollByAxis (some c) (-1) w) = _
      have hstep : scrollByAxis (some c) (-1) w = some ⟨c.scrollLeft - 20, c.scrollTop⟩ := by
        simp [scrollByAxis, scrollStep, hx]
        ring
      rw [hstep, (ih ⟨c.scrollLeft - 20, c.scrollTop⟩).2]
      congr 2
      push_cast
      ring

/-- C4 witness: three ticks at viewport width 500 move `scrollLeft`
from 0 to 60 (direction `+1`) or to -60 (direction `-1`), leaving
`scrollTop` at 0. -/
theorem horizontal_ticks_delta_witness :
    scrollTicks 3 1 500 (some ⟨0, 0⟩) = some ⟨60, 0⟩ ∧
    scrollTicks 3 (-1) 500 (some ⟨0, 0⟩) = some ⟨-60, 0⟩ := by
  have h := horizontal_ticks_delta 3 ⟨0, 0⟩ 500 (by omega)
  exact ⟨by simpa using h.1, by simpa using h.2⟩

/-- C5: cancellation is immediate and total.  After any event history,
a window resize clears the timer table within that same event-loop
turn, leaves the scroll offsets as they were, and no sequence of later
timer firings changes the state — the container's offsets remain those
at the moment of cancellation no matter how much time passes. -/
theorem resize_cancels_totally (evs : List Event) (w : Nat) (ts : List Nat) :
    (run initState (evs ++ [Event.resize w])).activeTimers = [] ∧
    (run initState (evs ++ [Event.resize w])).container = (run initState evs).container ∧
    runTicks (run initState (evs ++ [Event.resize w])) ts =
      run initState (evs ++ [Event.resize w]) := by
  have hinv : Inv (run initState evs) := inv_run evs initState inv_initState
  have hinv2 : Inv { run initState evs with viewportWidth := w } := hinv
  have hs := stop_state { run initState evs with viewportWidth := w } hinv2
  have heq : run initState (evs ++ [Event.resize w]) =
      stopContinuousScroll { run initState evs with viewportWidth := w } := by
    rw [run_append]; rfl
  refine ⟨by rw [heq, hs.1], by rw [heq, hs.2.2], ?_⟩
  exact runTicks_of_no_timers _ ts (by rw [heq, hs.1])

/-- C6: `stopContinuousScroll` is idempotent.  With no active session
it returns the state exactly as it was (no throw, no change); from any
reachable state it empties the timer table and nulls the session slot;
and a second immediate call changes nothing. -/
theorem stop_idempotent :
    (∀ s : ScrollState, s.scrollController = none → stopContinuousScroll s = s) ∧
    (∀ evs : List Event,
      (stopContinuousScroll (run initState evs)).activeTimers = [] ∧
      (stopContinuousScroll (run initState evs)).scrollController = none) ∧
    (∀ s : ScrollState, stopContinuousScroll (stopContinuousScroll s) = stopContinuousScroll s) := by
  have hnone : ∀ s : ScrollState, s.scrollController = none → stopContinuousScroll s = s := by
    intro s h
    unfold stopContinuousScroll
    rw [h]
  refine ⟨hnone, ?_, ?_⟩
  · intro evs
    have hinv : Inv (run initState evs) := inv_run evs initState inv_initState
    have hs := stop_state (run initState evs) hinv
    exact ⟨hs.1, hs.2.1⟩
  · intro s
    apply hnone
    unfold stopContinuousScroll
    cases h : s.scrollController <;> simp [h]

/-- C6 witness: stopping from the initial state (no active session)
changes nothing. -/
theorem stop_idempotent_witness : stopContinuousScroll initState = initState :=
  stop_idempotent.1 initState rfl

/-- C7: the per-tick step `scrollByAxis` called with a `null` container
raises no exception and changes no state: it returns the reference
unchanged, and a timer firing whose callback captured a `null`
container leaves the entire state — scroll offsets and session slot —
exactly as before. -/
theorem scrollByAxis_null_noop :
    (∀ (d : Int) (w : Nat), scrollByAxis none d w = none) ∧
    (∀ (s : ScrollState) (t : Nat) (tm : Timer),
      s.activeTimers.find? (fun x => x.id == t) = some tm →
      tm.passedNull = true → tickTimer s t = s) := by
  refine ⟨fun _ _ => rfl, ?_⟩
  intro s t tm hf hp
  unfold tickTimer
  rw [hf]
  simp [hp]

/-- C7 witness: a tick of the null-capturing session started from the
initial state leaves the state unchanged, and `scrollByAxis` on a
`null` reference returns it unchanged. -/
theorem scrollByAxis_null_noop_witness :
    tickTimer (startContinuousScroll initState true 1) 1 =
      startContinuousScroll initState true 1 ∧
    scrollByAxis none 1 500 = none :=
  ⟨scrollByAxis_null_noop.2 (startContinuousScroll initState true 1) 1
      ⟨1, true, 1⟩ rfl rfl,
   scrollByAxis_null_noop.1 1 500⟩

/-! ## Project normalization (`src/js/app.js` lines 144-157)

A raw project record has seven optional string-valued fields (a key may
be absent from the JSON source).  `normalizeProject` fills each output
field with `project.field || default`: JavaScript `||` yields the
default for every falsy left operand, which for a string-or-missing
field means absent (`undefined`) or the empty string. -/

/-- `PLACEHOLDERS.cardImage` (app.js 16). -/
def PLACEHOLDERS_cardImage : String := "/images/card_placeholder_bg.webp"

/-- `PLACEHOLDERS.spotlightImage` (app.js 17). -/
def PLACEHOLDERS_spotlightImage : String := "/images/spotlight_placeholder_bg.webp"

/-- A raw project record from `projectsData.json`: each field either
present with a string value or absent. -/
structure RawProject where
  project_id : Option String
  project_name : Option String
  short_description : Option String
  long_description : Option String
  url : Option String
  card_image : Option String
  spotlight_image : Option String
deriving DecidableEq, Repr

/-- The normalized project shape produced by `normalizeProject`. -/
structure Project where
  id : String
  name : String
  short : String
  long : String
  url : String
  cardImage : String
  spotlightImage : String
deriving DecidableEq, Repr

/-- JavaScript `v || d` for a string-or-missing field value `v`:
the default is taken when the field is absent or its value is falsy
(the empty string). -/
def jsOrDefault (v : Option String) (d : String) : String :=
  match v with
  | none => d
  | some s => if s = "" then d else s

/-- `normalizeProject` (app.js 149-157): each output field is
`project.field || default`. -/
def normalizeProject (project : RawProject) : Project :=
  { id := jsOrDefault project.project_id "unknown"
    name := jsOrDefault project.project_name "Untitled Project"
    short := jsOrDefault project.short_description "No description available."
    long := jsOrDefault project.long_description "Detailed information coming soon."
    url := jsOrDefault project.url "#"
    cardImage := jsOrDefault project.card_image PLACEHOLDERS_cardImage
    spotlightImage := jsOrDefault project.spotlight_image PLACEHOLDERS_spotlightImage }

theorem jsOrDefault_spec (v : Option String) (d : String) :
    (∀ s, v = some s → s ≠ "" → jsOrDefault v d = s) ∧
    ((v = none ∨ v = some "") → jsOrDefault v d = d) := by
  constructor
  · intro s hv hs
    rw [hv]
    show (if s = "" then d else s) = s
    rw [if_neg hs]
  · intro hv
    rcases hv with h | h <;> rw [h] <;> rfl

/-- C8 as stated is false: a present field is not always kept.  A raw
record whose `project_name` is present with the empty-string value is
normalized to the default name `"Untitled Project"`, not to its source
value `""`. -/
theorem normalizeProject_keeps_present_false :
    (normalizeProject ⟨none, some "", none, none, none, none, none⟩).name =
      "Untitled Project" ∧
    (normalizeProject ⟨none, some "", none, none, none, none, none⟩).name ≠ "" :=
  ⟨rfl, by decide⟩

/-- C8 amended: for every raw project record, each of the seven output
fields equals the source value when the field is present with a
non-empty (truthy) value, and equals the specified default — including
the placeholder image paths — when the field is absent or present with
the empty string. -/
theorem normalizeProject_fields (p : RawProject) :
    ((∀ s, p.project_id = some s → s ≠ "" → (normalizeProject p).id = s) ∧
      ((p.project_id = none ∨ p.project_id = some "") →
        (normalizeProject p).id = "unknown")) ∧
    ((∀ s, p.project_name = some s → s ≠ "" → (normalizeProject p).name = s) ∧
      ((p.project_name = none ∨ p.project_name = some "") →
        (normalizeProject p).name = "Untitled Project")) ∧
    ((∀ s, p.short_description = some s → s ≠ "" → (normalizeProject p).short = s) ∧
      ((p.short_description = none ∨ p.short_description = some "") →
        (normalizeProject p).short = "No description available.")) ∧
    ((∀ s, p.long_description = some s → s ≠ "" → (normalizeProject p).long = s) ∧
      ((p.long_description = none ∨ p.long_description = some "") →
        (normalizeProject p).long = "Detailed information coming soon.")) ∧
    ((∀ s, p.url = some s → s ≠ "" → (normalizeProject p).url = s) ∧
      ((p.url = none ∨ p.url = some "") → (normalizeProject p).url = "#")) ∧
    ((∀ s, p.card_image = some s → s ≠ "" → (normalizeProject p).cardImage = s) ∧
      ((p.card_image = none ∨ p.card_image = some "") →
        (normalizeProject p).cardImage = PLACEHOLDERS_cardImage)) ∧
    ((∀ s, p.spotlight_image = some s → s ≠ "" → (normalizeProject p).spotlightImage = s) ∧
      ((p.spotlight_image = none ∨ p.spotlight_image = some "") →
        (normalizeProject p).spotlightImage = PLACEHOLDERS_spotlightImage)) :=
  ⟨jsOrDefault_spec p.project_id "unknown",
   jsOrDefault_spec p.project_name "Untitled Project",
   jsOrDefault_spec p.short_description "No description available.",
   jsOrDefault_spec p.long_description "Detailed information coming soon.",
   jsOrDefault_spec p.url "#",
   jsOrDefault_spec p.card_image PLACEHOLDERS_cardImage,
   jsOrDefault_spec p.spotlight_image PLACEHOLDERS_spotlightImage⟩

/-- C8 witness: a fully populated record keeps its name, and a fully
absent record gets the card-image placeholder. -/
theorem normalizeProject_fields_witness :
    (normalizeProject ⟨some "p1", some "Proj", some "s", some "l", some "u",
      some "c", some "sp"⟩).name = "Proj" ∧
    (normalizeProject ⟨none, none, none, none, none, none, none⟩).cardImage =
      "/images/card_placeholder_bg.webp" :=
  ⟨(normalizeProject_fields ⟨some "p1", some "Proj", some "s", some "l", some "u",
      some "c", some "sp"⟩).2.1.1 "Proj" rfl (by decide),
   (normalizeProject_fields ⟨none, none, none, none, none, none, none⟩).2.2.2.2.2.1.2
      (Or.inl rfl)⟩

/-- C10: `normalizeProject` substitutes the default for every falsy
(empty-string) field value, not only for absent ones: an empty-string
`project_name` becomes `"Untitled Project"`, an empty-string
`card_image` becomes the card placeholder path, and likewise for the
other five fields. -/
theorem normalizeProject_empty_defaults (p : RawProject) :
    (p.project_name = some "" → (normalizeProject p).name = "Untitled Project") ∧
    (p.card_image = some "" → (normalizeProject p).cardImage = PLACEHOLDERS_cardImage) ∧
    (p.project_id = some "" → (normalizeProject p).id = "unknown") ∧
    (p.short_description = some "" →
      (normalizeProject p).short = "No description available.") ∧
    (p.long_description = some "" →
      (normalizeProject p).long = "Detailed information coming soon.") ∧
    (p.url = some "" → (normalizeProject p).url = "#") ∧
    (p.spotlight_image = some "" →
      (normalizeProject p).spotlightImage = PLACEHOLDERS_spotlightImage) :=
  ⟨fun h => (jsOrDefault_spec p.project_name _).2 (Or.inr h),
   fun h => (jsOrDefault_spec p.card_image _).2 (Or.inr h),
   fun h => (jsOrDefault_spec p.project_id _).2 (Or.inr h),
   fun h => (jsOrDefault_spec p.short_description _).2 (Or.inr h),
   fun h => (jsOrDefault_spec p.long_description _).2 (Or.inr h),
   fun h => (jsOrDefault_spec p.url _).2 (Or.inr h),
   fun h => (jsOrDefault_spec p.spotlight_image _).2 (Or.inr h)⟩

/-- C10 witness: a record with every field present but empty normalizes
to all defaults (shown for name and card image). -/
theorem normalizeProject_empty_defaults_witness :
    (normalizeProject ⟨some "", some "", some "", some "", some "", some "",
      some ""⟩).name = "Untitled Project" ∧
    (normalizeProject ⟨some "", some "", some "", some "", some "", some "",
      some ""⟩).cardImage = "/images/card_placeholder_bg.webp" :=
  ⟨(normalizeProject_empty_defaults ⟨some "", some "", some "", some "", some "",
      some "", some ""⟩).1 rfl,
   (normalizeProject_empty_defaults ⟨some "", some "", some "", some "", some "",
      some "", some ""⟩).2.1 rfl⟩

/-! ## Message validation (`src/js/app.js` lines 20-23, 41, 434-448)

Strings are modelled as lists of characters.  `REGEX.illegalChars` is
`/[^a-zA-Z0-9@._-]/`: it matches the string exactly when some character
lies outside the allowed set.  `value.trim()` strips JavaScript
whitespace (space, tab, line and paragraph separators, no-break space,
byte-order mark) from both ends; `!value.trim()` is true exactly when
the trimmed string is empty. -/

/-- `MESSAGE_LIMIT` (app.js 41). -/
def MESSAGE_LIMIT : Nat := 300

/-- Membership in the character class `[a-zA-Z0-9@._-]` of
`REGEX.illegalChars` (app.js 22). -/
def isAllowedChar (c : Char) : Bool :=
  ('a' ≤ c && c ≤ 'z') || ('A' ≤ c && c ≤ 'Z') || ('0' ≤ c && c ≤ '9') ||
    c == '@' || c == '.' || c == '_' || c == '-'

/-- `REGEX.illegalChars.test(value)`: true exactly when some character
of `value` is outside the allowed set. -/
def hasIllegalChar (value : List Char) : Bool :=
  value.any (fun c => !(isAllowedChar c))

/-- The JavaScript `String.prototype.trim` whitespace set (ASCII
whitespace, no-break space, line/paragraph separators, byte-order
mark). -/
def isJsWhitespace (c : Char) : Bool :=
  c == ' ' || c == '\t' || c == '\n' || c.val == 0x0d || c.val == 0x0b ||
    c.val == 0x0c || c.val == 0xa0 || c.val == 0x2028 || c.val == 0x2029 ||
    c.val == 0xfeff

/-- `value.trim()`: drop JavaScript whitespace from both ends. -/
def trimValue (value : List Char) : List Char :=
  ((value.dropWhile isJsWhitespace).reverse.dropWhile isJsWhitespace).reverse

/-- The `{ isValid, message }` object returned by the validators. -/
structure ValidationResult where
  isValid : Bool
  message : String
deriving DecidableEq, Repr

/-- `validateMessage` (app.js 434-448): required (trimmed value
non-empty), then no illegal characters, then length at most
`MESSAGE_LIMIT`. -/
def validateMessage (value : List Char) : ValidationResult :=
  if trimValue value = [] then
    ⟨false, "Message is required."⟩
  else if hasIllegalChar value then
    ⟨false, "Message contains invalid characters. Only letters, numbers, @, ., _, and - are allowed."⟩
  else if value.length > MESSAGE_LIMIT then
    ⟨false, "Message must be 300 characters or less."⟩
  else
    ⟨true, ""⟩

/-- C9: `validateMessage` returns `isValid = false` for every string
containing any character outside `[a-zA-Z0-9@._-]` — in particular any
whitespace — regardless of the string's length: either the trimmed
value is empty (required-field branch) or the illegal-character branch
fires. -/
theorem validateMessage_rejects_illegal (value : List Char) (c : Char)
    (hm : c ∈ value) (hc : isAllowedChar c = false) :
    (validateMessage value).isValid = false := by
  unfold validateMessage
  by_cases ht : trimValue value = []
  · rw [if_pos ht]
  · rw [if_neg ht]
    have hill : hasIllegalChar value = true := by
      unfold hasIllegalChar
      rw [List.any_eq_true]
      exact ⟨c, hm, by rw [hc]; rfl⟩
    rw [if_pos hill]

/-- C9 witness: the non-empty, under-limit message `"hi there"`
contains a space, so it fails validation. -/
theorem validateMessage_rejects_illegal_witness :
    (validateMessage ['h', 'i', ' ', 't', 'h', 'e', 'r', 'e']).isValid = false :=
  validateMessage_rejects_illegal ['h', 'i', ' ', 't', 'h', 'e', 'r', 'e'] ' '
    (by decide) (by decide)

end Portfolio
